import Mathlib

/-!
Shallow embedding of the welds-connections transaction layer
(src/welds-connections/src/mssql/transaction.rs and the mysql client's
fetch_many), and proofs about its connection-exclusivity cell and
transaction state machine.

Modelling conventions:
* `DbConn` (the tiberius client held in the `Arc<Mutex<Option<DbConn>>>`
  cell) is abstracted to a `Nat` handle; the cell itself is the
  `Option DbConn` contents of the mutex.
* Backend behaviour is an oracle (`Driver`): for each sql text it says
  whether `simple_query` / `execute` / the fetch pipeline succeeds and
  with what result.  Parameters are pass-through and folded into the
  oracle key.
* A Rust panic (failed `assert!` / `unwrap`) is the `Outcome.fault`
  constructor; a propagated driver error (the `?` operator) is
  `Outcome.err`; normal return is `Outcome.ok`.
* Each public operation is a function from the machine state
  (transaction fields + cell contents) to an `OpRes`: the outcome, the
  transaction fields after, the cell contents after, and the list of
  sql statements actually issued to the driver.
-/

namespace Welds

/-- Abstract physical connection handle (the tiberius `Client`). -/
abbrev DbConn := Nat

/-- Backend error value, abstracted to its message. -/
abbrev DbErr := String

/-- A materialized result row, abstracted. -/
abbrev Row := Nat

/-- Result of running a Rust code path: normal value, propagated backend
error (`?`), or a process-level panic (`assert!`, `unwrap`). -/
inductive Outcome (α : Type) where
  | ok : α → Outcome α
  | err : DbErr → Outcome α
  | fault : String → Outcome α
deriving DecidableEq

def Outcome.isOk {α : Type} : Outcome α → Bool
  | .ok _ => true
  | _ => false

def Outcome.isFault {α : Type} : Outcome α → Bool
  | .fault _ => true
  | _ => false

/-- `MssqlTransaction::take_conn`: swaps the connection out of the shared
cell; panics ("Pool was already taken") when the cell is already empty.
Returns the taken connection and the emptied cell. -/
def take_conn (cell : Option DbConn) : Outcome (DbConn × Option DbConn) :=
  match cell with
  | some c => .ok (c, none)
  | none => .fault "Pool was already taken"

/-- `MssqlTransaction::return_conn`: swaps a connection back into the
shared cell; panics ("Overriding existing pool") when the cell is still
full. Returns the refilled cell. -/
def return_conn (cell : Option DbConn) (c : DbConn) : Outcome (Option DbConn) :=
  match cell with
  | none => .ok (some c)
  | some _ => .fault "Overriding existing pool"

/-- One abstract operation against the exclusivity cell. -/
inductive CellOp where
  | acquire
  | release
deriving DecidableEq

def sameOp : CellOp → CellOp → Bool
  | .acquire, .acquire => true
  | .release, .release => true
  | _, _ => false

def flipOp : CellOp → CellOp
  | .acquire => .release
  | .release => .acquire

/-- The list strictly alternates, its first element being `expect`. -/
def isAltFrom : List CellOp → CellOp → Bool
  | [], _ => true
  | op :: rest, expect => sameOp op expect && isAltFrom rest (flipOp expect)

/-- Runs a sequence of cell operations through `take_conn` / `return_conn`.
`held` stacks the connections currently taken out; a `release` puts the
most recently taken one back.  Stops with the panic of the first
violating operation. -/
def runCellOps : List CellOp → Option DbConn → List DbConn → Outcome (Option DbConn × List DbConn)
  | [], cell, held => .ok (cell, held)
  | .acquire :: rest, cell, held =>
    match take_conn cell with
    | .ok (c, cell2) => runCellOps rest cell2 (c :: held)
    | .err e => .err e
    | .fault m => .fault m
  | .release :: rest, cell, held =>
    match return_conn cell (held.headD 0) with
    | .ok cell2 => runCellOps rest cell2 held.tail
    | .err e => .err e
    | .fault m => .fault m

/-- A strictly alternating trace keeps the cell fault-free: expected
`acquire` runs from a full cell, expected `release` from an empty one. -/
theorem runCellOps_alt_ok : ∀ ops : List CellOp,
    (isAltFrom ops CellOp.acquire = true →
      ∀ (c : DbConn) (held : List DbConn), (runCellOps ops (some c) held).isOk = true)
    ∧ (isAltFrom ops CellOp.release = true →
      ∀ held : List DbConn, (runCellOps ops none held).isOk = true)
  | [] => by
    constructor
    · intro _ c held
      rfl
    · intro _ held
      rfl
  | op :: rest => by
    obtain ⟨ih1, ih2⟩ := runCellOps_alt_ok rest
    constructor
    · intro h c held
      cases op with
      | acquire =>
        simp only [isAltFrom, sameOp, flipOp, Bool.true_and] at h
        simpa [runCellOps, take_conn] using ih2 h (c :: held)
      | release =>
        simp [isAltFrom, sameOp] at h
    · intro h held
      cases op with
      | acquire =>
        simp [isAltFrom, sameOp] at h
      | release =>
        simp only [isAltFrom, sameOp, flipOp, Bool.true_and] at h
        simpa [runCellOps, return_conn] using ih1 h (held.headD 0) held.tail

/-- C2: against one ConnectionCell starting full, any strictly
alternating acquire/release sequence beginning with acquire runs without
fault; an acquire on an empty cell or a release into a full cell panics
immediately. -/
theorem connection_cell_alternation (ops : List CellOp) (c c2 : DbConn)
    (held : List DbConn) (rest : List CellOp)
    (h : isAltFrom ops CellOp.acquire = true) :
    (runCellOps ops (some c) []).isOk = true
    ∧ (runCellOps (CellOp.acquire :: rest) none held).isFault = true
    ∧ (runCellOps (CellOp.release :: rest) (some c2) held).isFault = true := by
  refine ⟨(runCellOps_alt_ok ops).1 h c [], ?_, ?_⟩
  · simp [runCellOps, take_conn, Outcome.isFault]
  · simp [runCellOps, return_conn, Outcome.isFault]

/-- Witness for C2 at a concrete alternating trace. -/
theorem connection_cell_alternation_witness :
    isAltFrom [CellOp.acquire, CellOp.release] CellOp.acquire = true
    ∧ ((runCellOps [CellOp.acquire, CellOp.release] (some 7) []).isOk = true
       ∧ (runCellOps (CellOp.acquire :: []) none [5]).isFault = true
       ∧ (runCellOps (CellOp.release :: []) (some 3) [5]).isFault = true) :=
  ⟨by decide, connection_cell_alternation [CellOp.acquire, CellOp.release] 7 3 [5] [] (by decide)⟩

/-- Transaction lifecycle state (`enum State` in transaction.rs, spelling
kept from the source). -/
inductive State where
  | Open
  | Rolledback
  | Commited
deriving DecidableEq

/-- The fields of `MssqlTransaction` other than the shared cell: the
one-shot completion sender (`Option` because `Drop` swaps it out), the
state, and the symbolic transaction name. -/
structure MssqlTransaction where
  done : Option Unit
  state : State
  trans_name : String
deriving DecidableEq

/-- Backend oracle: for each connection and sql text, the result the
tiberius driver would produce.  `execute` yields the summed
rows-affected count; `query` yields the fully materialized rows of the
whole `fetch_rows_inner` pipeline. -/
structure Driver where
  simple_query : DbConn → String → Except DbErr Unit
  execute : DbConn → String → Except DbErr Nat
  query : DbConn → String → Except DbErr (List Row)

def exceptOk {ε α : Type} : Except ε α → Bool
  | .ok _ => true
  | .error _ => false

/-- Rows of a fetch result, empty on error. -/
def rowsOf : Except DbErr (List Row) → List Row
  | .ok rows => rows
  | .error _ => []

/-- Result of one operation on the machine: its outcome, the transaction
fields after it, the cell contents after it, and the sql statements it
issued to the driver, in order. -/
structure OpRes (α : Type) where
  out : Outcome α
  tx : MssqlTransaction
  cell : Option DbConn
  issued : List String
deriving DecidableEq

/-- Result of `MssqlTransaction::new` (no prior transaction exists). -/
structure NewRes where
  out : Outcome MssqlTransaction
  cell : Option DbConn
  issued : List String
deriving DecidableEq

/-- `MssqlTransaction::new`: builds the Open transaction named
`t_<counter>`, takes the connection, issues `BEGIN TRANSACTION`, and
only on success returns the connection to the cell before returning
`Ok`; on a driver error the `?` propagates first and the connection is
dropped, never returned. -/
def MssqlTransaction.new (d : Driver) (cell : Option DbConn) (count : Nat) : NewRes :=
  let this : MssqlTransaction :=
    { done := some (), state := State.Open, trans_name := "t_" ++ toString count }
  match take_conn cell with
  | .fault m => { out := .fault m, cell := cell, issued := [] }
  | .err e => { out := .err e, cell := cell, issued := [] }
  | .ok (conn, cell2) =>
    let sql := "BEGIN TRANSACTION " ++ this.trans_name
    match d.simple_query conn sql with
    | .error e => { out := .err e, cell := cell2, issued := [sql] }
    | .ok _ =>
      match return_conn cell2 conn with
      | .fault m => { out := .fault m, cell := cell2, issued := [sql] }
      | .err e => { out := .err e, cell := cell2, issued := [sql] }
      | .ok cell3 => { out := .ok this, cell := cell3, issued := [sql] }

/-- `MssqlTransaction::commit`: asserts the state is Open (panics
otherwise), sets it to Commited, takes the connection, issues
`COMMIT TRANSACTION`; the `?` propagates a driver error before
`return_conn` runs, so on failure the connection is not returned. -/
def MssqlTransaction.commit (d : Driver) (t : MssqlTransaction) (cell : Option DbConn) : OpRes Unit :=
  if t.state = State.Open then
    let t2 : MssqlTransaction := { t with state := State.Commited }
    match take_conn cell with
    | .fault m => { out := .fault m, tx := t2, cell := cell, issued := [] }
    | .err e => { out := .err e, tx := t2, cell := cell, issued := [] }
    | .ok (conn, cell2) =>
      let sql := "COMMIT TRANSACTION " ++ t2.trans_name
      match d.simple_query conn sql with
      | .error e => { out := .err e, tx := t2, cell := cell2, issued := [sql] }
      | .ok _ =>
        match return_conn cell2 conn with
        | .fault m => { out := .fault m, tx := t2, cell := cell2, issued := [sql] }
        | .err e => { out := .err e, tx := t2, cell := cell2, issued := [sql] }
        | .ok cell3 => { out := .ok (), tx := t2, cell := cell3, issued := [sql] }
  else
    { out := .fault "assertion failed: state == State::Open", tx := t, cell := cell, issued := [] }

/-- `MssqlTransaction::rollback` (and the identical `rollback_internal`):
returns `Ok` at once when already Rolledback; otherwise asserts Open
(panics on Commited), sets the state to Rolledback, takes the
connection, issues `ROLLBACK TRANSACTION` discarding the driver result
(`let _ = ...`), and returns the connection before returning `Ok`. -/
def MssqlTransaction.rollback (d : Driver) (t : MssqlTransaction) (cell : Option DbConn) : OpRes Unit :=
  if t.state = State.Rolledback then
    { out := .ok (), tx := t, cell := cell, issued := [] }
  else if t.state = State.Open then
    let t2 : MssqlTransaction := { t with state := State.Rolledback }
    match take_conn cell with
    | .fault m => { out := .fault m, tx := t2, cell := cell, issued := [] }
    | .err e => { out := .err e, tx := t2, cell := cell, issued := [] }
    | .ok (conn, cell2) =>
      let sql := "ROLLBACK TRANSACTION " ++ t2.trans_name
      let _ignored := d.simple_query conn sql
      match return_conn cell2 conn with
      | .fault m => { out := .fault m, tx := t2, cell := cell2, issued := [sql] }
      | .err e => { out := .err e, tx := t2, cell := cell2, issued := [sql] }
      | .ok cell3 => { out := .ok (), tx := t2, cell := cell3, issued := [sql] }
  else
    { out := .fault "assertion failed: state == State::Open", tx := t, cell := cell, issued := [] }

/-- `Client::execute` for `MssqlTransaction`: asserts Open, takes the
connection, runs the statement keeping the result, returns the
connection, and only then applies `?` to the kept result. -/
def MssqlTransaction.execute (d : Driver) (t : MssqlTransaction) (cell : Option DbConn)
    (sql : String) : OpRes Nat :=
  if t.state = State.Open then
    match take_conn cell with
    | .fault m => { out := .fault m, tx := t, cell := cell, issued := [] }
    | .err e => { out := .err e, tx := t, cell := cell, issued := [] }
    | .ok (conn, cell2) =>
      let r := d.execute conn sql
      match return_conn cell2 conn with
      | .fault m => { out := .fault m, tx := t, cell := cell2, issued := [sql] }
      | .err e => { out := .err e, tx := t, cell := cell2, issued := [sql] }
      | .ok cell3 =>
        match r with
        | .error e => { out := .err e, tx := t, cell := cell3, issued := [sql] }
        | .ok n => { out := .ok n, tx := t, cell := cell3, issued := [sql] }
  else
    { out := .fault "assertion failed: state == State::Open", tx := t, cell := cell, issued := [] }

/-- `fetch_rows_inner`: the query + row-materialization pipeline, folded
into the driver oracle. -/
def fetch_rows_inner (d : Driver) (conn : DbConn) (sql : String) : Except DbErr (List Row) :=
  d.query conn sql

/-- `Client::fetch_rows` for `MssqlTransaction`: asserts Open, takes the
connection, runs `fetch_rows_inner` keeping the result, returns the
connection, then applies `?`. -/
def MssqlTransaction.fetch_rows (d : Driver) (t : MssqlTransaction) (cell : Option DbConn)
    (sql : String) : OpRes (List Row) :=
  if t.state = State.Open then
    match take_conn cell with
    | .fault m => { out := .fault m, tx := t, cell := cell, issued := [] }
    | .err e => { out := .err e, tx := t, cell := cell, issued := [] }
    | .ok (conn, cell2) =>
      let r := fetch_rows_inner d conn sql
      match return_conn cell2 conn with
      | .fault m => { out := .fault m, tx := t, cell := cell2, issued := [sql] }
      | .err e => { out := .err e, tx := t, cell := cell2, issued := [sql] }
      | .ok cell3 =>
        match r with
        | .error e => { out := .err e, tx := t, cell := cell3, issued := [sql] }
        | .ok rows => { out := .ok rows, tx := t, cell := cell3, issued := [sql] }
  else
    { out := .fault "assertion failed: state == State::Open", tx := t, cell := cell, issued := [] }

/-- The loop body of `MssqlTransaction::fetch_many`: runs each statement
in order through `fetch_rows_inner`, pushes each result (the failed one
included), and breaks after the first error.  Also returns the list of
statements actually attempted, in order. -/
def fetchManyLoop (d : Driver) (conn : DbConn) : List String → List (Except DbErr (List Row)) × List String
  | [] => ([], [])
  | sql :: rest =>
    match fetch_rows_inner d conn sql with
    | .error e => ([Except.error e], [sql])
    | .ok rows =>
      let p := fetchManyLoop d conn rest
      (Except.ok rows :: p.1, sql :: p.2)

/-- `results.drain(..).collect::<Result<Vec<Vec<Row>>>>()`: the first
error wins, otherwise all row sets in order. -/
def collectResults : List (Except DbErr (List Row)) → Except DbErr (List (List Row))
  | [] => Except.ok []
  | Except.error e :: _ => Except.error e
  | Except.ok rows :: rest =>
    match collectResults rest with
    | Except.error e => Except.error e
    | Except.ok rss => Except.ok (rows :: rss)

/-- `Client::fetch_many` for `MssqlTransaction`: asserts Open, takes the
connection once, runs the loop, returns the connection, then collects
the accumulated results into one `Result`. -/
def MssqlTransaction.fetch_many (d : Driver) (t : MssqlTransaction) (cell : Option DbConn)
    (stmts : List String) : OpRes (List (List Row)) :=
  if t.state = State.Open then
    match take_conn cell with
    | .fault m => { out := .fault m, tx := t, cell := cell, issued := [] }
    | .err e => { out := .err e, tx := t, cell := cell, issued := [] }
    | .ok (conn, cell2) =>
      let p := fetchManyLoop d conn stmts
      match return_conn cell2 conn with
      | .fault m => { out := .fault m, tx := t, cell := cell2, issued := p.2 }
      | .err e => { out := .err e, tx := t, cell := cell2, issued := p.2 }
      | .ok cell3 =>
        match collectResults p.1 with
        | .error e => { out := .err e, tx := t, cell := cell3, issued := p.2 }
        | .ok rss => { out := .ok rss, tx := t, cell := cell3, issued := p.2 }
  else
    { out := .fault "assertion failed: state == State::Open", tx := t, cell := cell, issued := [] }

/-- `impl Drop for MssqlTransaction`: swaps the sender out (`unwrap`
panics were it already gone), then sends exactly one boolean — `false`
when the state is no longer Open, `true` when it still is.  `recvAlive`
says whether the receiver still exists; `send(..).unwrap()` panics when
it does not.  The `ok` payload is the list of delivered messages. -/
def MssqlTransaction.drop (recvAlive : Bool) (t : MssqlTransaction) : Outcome (List Bool) :=
  match t.done with
  | none => .fault "called Option::unwrap on a None value"
  | some _ =>
    if t.state = State.Open then
      if recvAlive then .ok [true] else .fault "send on closed channel"
    else
      if recvAlive then .ok [false] else .fault "send on closed channel"

/-- The loop of `MysqlClient::fetch_many`: applies `?` to each fetched
result directly, accumulating row sets; also returns the statements
attempted, in order. -/
def mysqlFetchManyLoop (q : String → Except DbErr (List Row)) : List String → Except DbErr (List (List Row)) × List String
  | [] => (Except.ok [], [])
  | sql :: rest =>
    match q sql with
    | .error e => (Except.error e, [sql])
    | .ok rows =>
      let p := mysqlFetchManyLoop q rest
      (match p.1 with
       | .error e => Except.error e
       | .ok rss => Except.ok (rows :: rss),
       sql :: p.2)

/-- `MysqlClient::fetch_many`: acquires a pool connection (`?` on
failure) then runs the loop on that one connection. -/
def mysqlFetchMany (acq : Except DbErr Unit) (q : String → Except DbErr (List Row))
    (stmts : List String) : Except DbErr (List (List Row)) × List String :=
  match acq with
  | .error e => (Except.error e, [])
  | .ok _ => mysqlFetchManyLoop q stmts

/-- A driver whose every statement fails with "boom". -/
def failDriver : Driver :=
  { simple_query := fun _ _ => Except.error "boom"
  , execute := fun _ _ => Except.error "boom"
  , query := fun _ _ => Except.error "boom" }

/-- C1 counterexample: when the BEGIN statement fails, `new` propagates
the error while the cell is left empty (the connection was dropped, not
returned); `commit` behaves the same for a failing COMMIT statement. -/
theorem begin_error_leaves_cell_empty :
    (MssqlTransaction.new failDriver (some 0) 1).out = Outcome.err "boom"
    ∧ (MssqlTransaction.new failDriver (some 0) 1).cell = none
    ∧ (MssqlTransaction.commit failDriver ⟨some (), State.Open, "t_1"⟩ (some 0)).out
        = Outcome.err "boom"
    ∧ (MssqlTransaction.commit failDriver ⟨some (), State.Open, "t_1"⟩ (some 0)).cell = none :=
  ⟨rfl, rfl, rfl, rfl⟩

/-- C1 (amended): execute, fetch_rows, fetch_many and rollback return
the connection to the cell on every exit path before any error is
propagated; begin (new) and commit return it on success, but when the
BEGIN or COMMIT statement itself fails the error is propagated with the
connection dropped and the cell left empty. -/
theorem release_on_exit_paths_amended (d : Driver) (dn : Option Unit) (nm : String)
    (c : DbConn) (count : Nat) (sql : String) (stmts : List String) :
    (MssqlTransaction.execute d ⟨dn, State.Open, nm⟩ (some c) sql).cell = some c
    ∧ (MssqlTransaction.fetch_rows d ⟨dn, State.Open, nm⟩ (some c) sql).cell = some c
    ∧ (MssqlTransaction.fetch_many d ⟨dn, State.Open, nm⟩ (some c) stmts).cell = some c
    ∧ (MssqlTransaction.rollback d ⟨dn, State.Open, nm⟩ (some c)).cell = some c
    ∧ (MssqlTransaction.new d (some c) count).cell
        = (match d.simple_query c ("BEGIN TRANSACTION " ++ ("t_" ++ toString count)) with
           | Except.ok _ => some c
           | Except.error _ => none)
    ∧ (MssqlTransaction.commit d ⟨dn, State.Open, nm⟩ (some c)).cell
        = (match d.simple_query c ("COMMIT TRANSACTION " ++ nm) with
           | Except.ok _ => some c
           | Except.error _ => none) := by
  refine ⟨?_, ?_, ?_, ?_, ?_, ?_⟩
  · cases hr : d.execute c sql <;>
      simp [MssqlTransaction.execute, take_conn, return_conn, hr]
  · cases hr : d.query c sql <;>
      simp [MssqlTransaction.fetch_rows, fetch_rows_inner, take_conn, return_conn, hr]
  · cases hr : collectResults (fetchManyLoop d c stmts).1 <;>
      simp [MssqlTransaction.fetch_many, take_conn, return_conn, hr]
  · simp [MssqlTransaction.rollback, take_conn, return_conn]
  · cases hr : d.simple_query c ("BEGIN TRANSACTION " ++ ("t_" ++ toString count)) <;>
      simp [MssqlTransaction.new, take_conn, return_conn, hr]
  · cases hr : d.simple_query c ("COMMIT TRANSACTION " ++ nm) <;>
      simp [MssqlTransaction.commit, take_conn, return_conn, hr]

/-- C3: on an Open transaction with a full cell, execute, fetch_rows and
fetch_many leave the cell full when they return, whatever the driver
did, and never panic. -/
theorem statement_ops_restore_cell (d : Driver) (dn : Option Unit) (nm : String)
    (c : DbConn) (sql : String) (stmts : List String) :
    ((MssqlTransaction.execute d ⟨dn, State.Open, nm⟩ (some c) sql).cell = some c
      ∧ (MssqlTransaction.execute d ⟨dn, State.Open, nm⟩ (some c) sql).out.isFault = false)
    ∧ ((MssqlTransaction.fetch_rows d ⟨dn, State.Open, nm⟩ (some c) sql).cell = some c
      ∧ (MssqlTransaction.fetch_rows d ⟨dn, State.Open, nm⟩ (some c) sql).out.isFault = false)
    ∧ ((MssqlTransaction.fetch_many d ⟨dn, State.Open, nm⟩ (some c) stmts).cell = some c
      ∧ (MssqlTransaction.fetch_many d ⟨dn, State.Open, nm⟩ (some c) stmts).out.isFault = false) := by
  refine ⟨⟨?_, ?_⟩, ⟨?_, ?_⟩, ⟨?_, ?_⟩⟩
  · cases hr : d.execute c sql <;>
      simp [MssqlTransaction.execute, take_conn, return_conn, hr, Outcome.isFault]
  · cases hr : d.execute c sql <;>
      simp [MssqlTransaction.execute, take_conn, return_conn, hr, Outcome.isFault]
  · cases hr : d.query c sql <;>
      simp [MssqlTransaction.fetch_rows, fetch_rows_inner, take_conn, return_conn, hr,
        Outcome.isFault]
  · cases hr : d.query c sql <;>
      simp [MssqlTransaction.fetch_rows, fetch_rows_inner, take_conn, return_conn, hr,
        Outcome.isFault]
  · cases hr : collectResults (fetchManyLoop d c stmts).1 <;>
      simp [MssqlTransaction.fetch_many, take_conn, return_conn, hr, Outcome.isFault]
  · cases hr : collectResults (fetchManyLoop d c stmts).1 <;>
      simp [MssqlTransaction.fetch_many, take_conn, return_conn, hr, Outcome.isFault]

/-- C5: with the sender still present, teardown delivers exactly one
boolean — true when the state is still Open, false when it is Commited
or Rolledback; when the receiver is gone the delivery failure is a
panic. -/
theorem drop_sends_exactly_once (st : State) (nm : String) :
    MssqlTransaction.drop true ⟨some (), st, nm⟩ = Outcome.ok [decide (st = State.Open)]
    ∧ (MssqlTransaction.drop false ⟨some (), st, nm⟩).isFault = true := by
  cases st <;> simp [MssqlTransaction.drop, Outcome.isFault]

/-- C6: rollback from Rolledback is an idempotent no-op returning
success with no statement issued; rollback from Open returns success for
every driver (a rollback-statement failure is never propagated), moves
the state to Rolledback, issues the ROLLBACK statement, and refills the
cell. -/
theorem rollback_idempotent_and_swallows (d : Driver) (dn : Option Unit) (nm : String)
    (c : DbConn) (cell : Option DbConn) :
    MssqlTransaction.rollback d ⟨dn, State.Rolledback, nm⟩ cell
        = { out := Outcome.ok (), tx := ⟨dn, State.Rolledback, nm⟩, cell := cell, issued := [] }
    ∧ (MssqlTransaction.rollback d ⟨dn, State.Open, nm⟩ (some c)).out = Outcome.ok ()
    ∧ (MssqlTransaction.rollback d ⟨dn, State.Open, nm⟩ (some c)).tx.state = State.Rolledback
    ∧ (MssqlTransaction.rollback d ⟨dn, State.Open, nm⟩ (some c)).issued
        = ["ROLLBACK TRANSACTION " ++ nm]
    ∧ (MssqlTransaction.rollback d ⟨dn, State.Open, nm⟩ (some c)).cell = some c := by
  refine ⟨rfl, ?_, ?_, ?_, ?_⟩ <;> simp [MssqlTransaction.rollback, take_conn, return_conn]

/-- C7: commit from either terminal state panics; commit from Open moves
the state to Commited (also when the COMMIT statement fails), issues the
COMMIT statement, and returns success or propagates the driver error
according to the driver result. -/
theorem commit_only_from_open (d : Driver) (dn : Option Unit) (nm : String)
    (c : DbConn) (cell : Option DbConn) :
    (MssqlTransaction.commit d ⟨dn, State.Rolledback, nm⟩ cell).out.isFault = true
    ∧ (MssqlTransaction.commit d ⟨dn, State.Commited, nm⟩ cell).out.isFault = true
    ∧ (MssqlTransaction.commit d ⟨dn, State.Open, nm⟩ (some c)).tx.state = State.Commited
    ∧ (MssqlTransaction.commit d ⟨dn, State.Open, nm⟩ (some c)).issued
        = ["COMMIT TRANSACTION " ++ nm]
    ∧ (MssqlTransaction.commit d ⟨dn, State.Open, nm⟩ (some c)).out
        = (match d.simple_query c ("COMMIT TRANSACTION " ++ nm) with
           | Except.ok _ => Outcome.ok ()
           | Except.error e => Outcome.err e) := by
  refine ⟨rfl, rfl, ?_, ?_, ?_⟩ <;>
    cases hr : d.simple_query c ("COMMIT TRANSACTION " ++ nm) <;>
      simp [MssqlTransaction.commit, take_conn, return_conn, hr]

/-- C8: execute, fetch_rows and fetch_many on a non-Open transaction
panic immediately (no error value) and issue nothing to the driver. -/
theorem non_open_statement_ops_fault (d : Driver) (dn : Option Unit) (nm : String)
    (cell : Option DbConn) (sql : String) (stmts : List String) :
    ((MssqlTransaction.execute d ⟨dn, State.Rolledback, nm⟩ cell sql).out.isFault = true
      ∧ (MssqlTransaction.execute d ⟨dn, State.Rolledback, nm⟩ cell sql).issued = [])
    ∧ ((MssqlTransaction.execute d ⟨dn, State.Commited, nm⟩ cell sql).out.isFault = true
      ∧ (MssqlTransaction.execute d ⟨dn, State.Commited, nm⟩ cell sql).issued = [])
    ∧ ((MssqlTransaction.fetch_rows d ⟨dn, State.Rolledback, nm⟩ cell sql).out.isFault = true
      ∧ (MssqlTransaction.fetch_rows d ⟨dn, State.Rolledback, nm⟩ cell sql).issued = [])
    ∧ ((MssqlTransaction.fetch_rows d ⟨dn, State.Commited, nm⟩ cell sql).out.isFault = true
      ∧ (MssqlTransaction.fetch_rows d ⟨dn, State.Commited, nm⟩ cell sql).issued = [])
    ∧ ((MssqlTransaction.fetch_many d ⟨dn, State.Rolledback, nm⟩ cell stmts).out.isFault = true
      ∧ (MssqlTransaction.fetch_many d ⟨dn, State.Rolledback, nm⟩ cell stmts).issued = [])
    ∧ ((MssqlTransaction.fetch_many d ⟨dn, State.Commited, nm⟩ cell stmts).out.isFault = true
      ∧ (MssqlTransaction.fetch_many d ⟨dn, State.Commited, nm⟩ cell stmts).issued = []) := by
  exact ⟨⟨rfl, rfl⟩, ⟨rfl, rfl⟩, ⟨rfl, rfl⟩, ⟨rfl, rfl⟩, ⟨rfl, rfl⟩, ⟨rfl, rfl⟩⟩

/-- C9: rollback on a Commited transaction panics (it is neither a no-op
nor an error value) and issues nothing; the idempotent path exists only
for Rolledback. -/
theorem rollback_on_committed_faults (d : Driver) (dn : Option Unit) (nm : String)
    (cell : Option DbConn) :
    (MssqlTransaction.rollback d ⟨dn, State.Commited, nm⟩ cell).out.isFault = true
    ∧ (MssqlTransaction.rollback d ⟨dn, State.Commited, nm⟩ cell).issued = [] :=
  ⟨rfl, rfl⟩

/-- C10: fetch_many with an empty batch on an Open transaction with a
full cell returns an empty result list, issues nothing, and leaves the
cell full and the state Open. -/
theorem fetch_many_empty_batch (d : Driver) (dn : Option Unit) (nm : String) (c : DbConn) :
    MssqlTransaction.fetch_many d ⟨dn, State.Open, nm⟩ (some c) []
      = { out := Outcome.ok [], tx := ⟨dn, State.Open, nm⟩, cell := some c, issued := [] } :=
  rfl

/-- When every statement of the batch succeeds, the mssql loop returns
one ok result per statement, in order, and attempts every statement. -/
theorem fetchManyLoop_all_ok (d : Driver) (conn : DbConn) :
    ∀ stmts : List String, (∀ s ∈ stmts, exceptOk (d.query conn s) = true) →
      fetchManyLoop d conn stmts
        = (stmts.map fun s => Except.ok (rowsOf (d.query conn s)), stmts)
  | [], _ => rfl
  | sql :: rest, h => by
    have hhead := h sql (by simp)
    have htail : ∀ s ∈ rest, exceptOk (d.query conn s) = true :=
      fun s hs => h s (by simp [hs])
    cases hq : d.query conn sql with
    | error e => rw [hq] at hhead; simp [exceptOk] at hhead
    | ok rows =>
      simp [fetchManyLoop, fetch_rows_inner, hq, fetchManyLoop_all_ok d conn rest htail, rowsOf]

/-- When the prefix succeeds and `b` fails, the mssql loop stops at `b`:
its results are the prefix results followed by the error, and only the
prefix and `b` were attempted. -/
theorem fetchManyLoop_first_err (d : Driver) (conn : DbConn) (b : String) (e : DbErr)
    (post : List String) (hb : d.query conn b = Except.error e) :
    ∀ pre : List String, (∀ s ∈ pre, exceptOk (d.query conn s) = true) →
      fetchManyLoop d conn (pre ++ b :: post)
        = ((pre.map fun s => Except.ok (rowsOf (d.query conn s))) ++ [Except.error e],
           pre ++ [b])
  | [], _ => by simp [fetchManyLoop, fetch_rows_inner, hb]
  | sql :: rest, h => by
    have hhead := h sql (by simp)
    have htail : ∀ s ∈ rest, exceptOk (d.query conn s) = true :=
      fun s hs => h s (by simp [hs])
    cases hq : d.query conn sql with
    | error e2 => rw [hq] at hhead; simp [exceptOk] at hhead
    | ok rows =>
      simp [fetchManyLoop, fetch_rows_inner, hq,
        fetchManyLoop_first_err d conn b e post hb rest htail, rowsOf]

/-- Collecting all-ok results yields the row sets in order. -/
theorem collectResults_map_ok (f : String → List Row) : ∀ stmts : List String,
    collectResults (stmts.map fun s => Except.ok (f s)) = Except.ok (stmts.map f)
  | [] => rfl
  | s :: rest => by simp [collectResults, collectResults_map_ok f rest]

/-- Collecting ok results followed by one error yields that error,
discarding the earlier rows. -/
theorem collectResults_append_err (e : DbErr) (f : String → List Row) : ∀ pre : List String,
    collectResults ((pre.map fun s => Except.ok (f s)) ++ [Except.error e]) = Except.error e
  | [] => rfl
  | s :: rest => by simp [collectResults, collectResults_append_err e f rest]

/-- Mysql loop, all statements succeeding. -/
theorem mysqlLoop_all_ok (q : String → Except DbErr (List Row)) :
    ∀ stmts : List String, (∀ s ∈ stmts, exceptOk (q s) = true) →
      mysqlFetchManyLoop q stmts = (Except.ok (stmts.map fun s => rowsOf (q s)), stmts)
  | [], _ => rfl
  | sql :: rest, h => by
    have hhead := h sql (by simp)
    have htail : ∀ s ∈ rest, exceptOk (q s) = true := fun s hs => h s (by simp [hs])
    cases hq : q sql with
    | error e => rw [hq] at hhead; simp [exceptOk] at hhead
    | ok rows =>
      simp [mysqlFetchManyLoop, hq, mysqlLoop_all_ok q rest htail, rowsOf]

/-- Mysql loop, first failure at `b`: the whole call returns that error
and attempts exactly the prefix and `b`. -/
theorem mysqlLoop_first_err (q : String → Except DbErr (List Row)) (b : String) (e : DbErr)
    (post : List String) (hb : q b = Except.error e) :
    ∀ pre : List String, (∀ s ∈ pre, exceptOk (q s) = true) →
      mysqlFetchManyLoop q (pre ++ b :: post) = (Except.error e, pre ++ [b])
  | [], _ => by simp [mysqlFetchManyLoop, hb]
  | sql :: rest, h => by
    have hhead := h sql (by simp)
    have htail : ∀ s ∈ rest, exceptOk (q s) = true := fun s hs => h s (by simp [hs])
    cases hq : q sql with
    | error e2 => rw [hq] at hhead; simp [exceptOk] at hhead
    | ok rows =>
      simp [mysqlFetchManyLoop, hq, mysqlLoop_first_err q b e post hb rest htail]

/-- C4: fetch_many (mssql transaction and mysql client alike) runs its
batch in input order; the first failing statement aborts the batch with
that statement's error, later statements are never attempted, and rows
already fetched are discarded; an all-success batch yields one
row-sequence per statement, in input order. -/
theorem fetch_many_order_first_failure (d : Driver) (dn : Option Unit) (nm : String)
    (c : DbConn) (pre post stmts : List String) (b : String) (e : DbErr)
    (hpre : ∀ s ∈ pre, exceptOk (d.query c s) = true)
    (hb : d.query c b = Except.error e)
    (hall : ∀ s ∈ stmts, exceptOk (d.query c s) = true) :
    (MssqlTransaction.fetch_many d ⟨dn, State.Open, nm⟩ (some c) (pre ++ b :: post)).out
        = Outcome.err e
    ∧ (MssqlTransaction.fetch_many d ⟨dn, State.Open, nm⟩ (some c) (pre ++ b :: post)).issued
        = pre ++ [b]
    ∧ (MssqlTransaction.fetch_many d ⟨dn, State.Open, nm⟩ (some c) stmts).out
        = Outcome.ok (stmts.map fun s => rowsOf (d.query c s))
    ∧ (MssqlTransaction.fetch_many d ⟨dn, State.Open, nm⟩ (some c) stmts).issued = stmts
    ∧ (mysqlFetchMany (Except.ok ()) (d.query c) (pre ++ b :: post)).1 = Except.error e
    ∧ (mysqlFetchMany (Except.ok ()) (d.query c) (pre ++ b :: post)).2 = pre ++ [b] := by
  have hfail := fetchManyLoop_first_err d c b e post hb pre hpre
  have hok := fetchManyLoop_all_ok d c stmts hall
  have hmy := mysqlLoop_first_err (d.query c) b e post hb pre hpre
  refine ⟨?_, ?_, ?_, ?_, ?_, ?_⟩ <;>
    simp [MssqlTransaction.fetch_many, mysqlFetchMany, take_conn, return_conn,
      hfail, hok, hmy, collectResults_append_err, collectResults_map_ok]

/-- A driver for the concrete batch [A, B, C] where B fails. -/
def testDriver : Driver :=
  { simple_query := fun _ _ => Except.ok ()
  , execute := fun _ _ => Except.ok 1
  , query := fun _ sql =>
      if sql = "B" then Except.error "bfail"
      else if sql = "A" then Except.ok [1, 2]
      else Except.ok [3] }

/-- Witness for C4: batch [A, B, C] with B failing returns B's error and
attempts only A and B; the all-success batch [A, C] returns both row
sets in order. -/
theorem fetch_many_order_first_failure_witness :
    (MssqlTransaction.fetch_many testDriver ⟨some (), State.Open, "t_1"⟩ (some 0)
        (["A"] ++ "B" :: ["C"])).out = Outcome.err "bfail"
    ∧ (MssqlTransaction.fetch_many testDriver ⟨some (), State.Open, "t_1"⟩ (some 0)
        (["A"] ++ "B" :: ["C"])).issued = ["A"] ++ ["B"]
    ∧ (MssqlTransaction.fetch_many testDriver ⟨some (), State.Open, "t_1"⟩ (some 0)
        ["A", "C"]).out
        = Outcome.ok (["A", "C"].map fun s => rowsOf (testDriver.query 0 s))
    ∧ (MssqlTransaction.fetch_many testDriver ⟨some (), State.Open, "t_1"⟩ (some 0)
        ["A", "C"]).issued = ["A", "C"]
    ∧ (mysqlFetchMany (Except.ok ()) (testDriver.query 0) (["A"] ++ "B" :: ["C"])).1
        = Except.error "bfail"
    ∧ (mysqlFetchMany (Except.ok ()) (testDriver.query 0) (["A"] ++ "B" :: ["C"])).2
        = ["A"] ++ ["B"] :=
  fetch_many_order_first_failure testDriver (some ()) "t_1" 0 ["A"] ["C"] ["A", "C"]
    "B" "bfail" (by decide) (by rfl) (by decide)

end Welds
